import Mathlib

/-!
Shallow embedding of the Diagram Canvas Engine of this repository
(src/lib/utils.ts, src/unnamed/part_000, src/app/project/[id]/page.tsx)
and proofs of the specified properties.

Modelling conventions:
* JS numbers are modelled as rationals (`ℚ`): finite floating-point values
  embed into `ℚ` and the claims speak about ideal arithmetic (the spec's
  "within floating-point tolerance" becomes exactness).
* `generateId()` (Date.now + Math.random) is nondeterministic; it is
  modelled by an id supply `gen : Nat → String` indexed by call order.
* `JSON.parse` is a JS runtime primitive, not code of this repository; it
  is modelled as an explicit parameter `jparse : String → Except String
  AgentData` (a parse either throws - `Except.error` - or yields a value
  whose `nodes` / `connections` fields are the only ones the code reads).
* JS object references (needed to settle the copy-by-value claim about
  `createNodeFromTemplate`) are modelled by a small heap of specification
  records addressed by `Nat`.
-/

/-- Canvas- or screen-space point, the `{ x, y }` position objects of the
source. -/
structure Pos where
  x : ℚ
  y : ℚ
deriving DecidableEq

/-- Specifications block of a node (`technology` / `capacity` / `latency`,
the keys every template and fallback node of the source populates). -/
structure Specifications where
  technology : String
  capacity : String
  latency : String
deriving DecidableEq

/-- Scaling metadata block of a `SystemNode`. -/
structure ScalingBlock where
  horizontal : Bool
  vertical : Bool
  auto_scaling : Bool
  details : String
deriving DecidableEq

/-- Fault-tolerance metadata block of a `SystemNode`. -/
structure FaultToleranceBlock where
  replication : Bool
  backup : Bool
  failover : Bool
  details : String
deriving DecidableEq

/-- A placed component (interface `SystemNode` of src/unnamed/part_000).
The `type` field keeps the source's string tags (api-gateway, database,
cache, queue, service, custom). -/
structure SystemNode where
  id : String
  type : String
  name : String
  description : String
  position : Pos
  specifications : Specifications
  scaling : ScalingBlock
  fault_tolerance : FaultToleranceBlock
  connections : List String
  icon : String
deriving DecidableEq

/-- A directed edge (interface `NodeConnection`). -/
structure NodeConnection where
  id : String
  source : String
  target : String
  type : String
  label : String
  protocol : String
deriving DecidableEq

/-- Project status (`draft | generating | completed` in the source). -/
inductive Status where
  | draft
  | generating
  | completed
deriving DecidableEq

/-- An immutable snapshot (interface `ProjectVersion`). -/
structure ProjectVersion where
  id : String
  version : Nat
  timestamp : String
  nodes : List SystemNode
  connections : List NodeConnection
  snapshot_name : Option String
deriving DecidableEq

/-- The unit of persistence (interface `Project`). -/
structure Project where
  id : String
  name : String
  requirements : String
  audience : String
  nodes : List SystemNode
  connections : List NodeConnection
  status : Status
  created_at : String
  updated_at : String
  versions : List ProjectVersion
deriving DecidableEq

/-- Model of `CanvasUtils.screenToCanvas` (src/lib/utils.ts lines
227-237): `(screen - pan) / zoom`, componentwise. -/
def screenToCanvas (screenX screenY : ℚ) (pan : Pos) (zoom : ℚ) : Pos :=
  ⟨(screenX - pan.x) / zoom, (screenY - pan.y) / zoom⟩

/-- Model of `CanvasUtils.canvasToScreen` (src/lib/utils.ts lines
239-249): `canvas * zoom + pan`, componentwise. -/
def canvasToScreen (canvasX canvasY : ℚ) (pan : Pos) (zoom : ℚ) : Pos :=
  ⟨canvasX * zoom + pan.x, canvasY * zoom + pan.y⟩

/-- Spread minimum `Math.min(...xs)` over a list; the source only applies
it to non-empty lists (the `[]` case is unreachable behind the
`nodes.length === 0` guard and is given the arbitrary value 0). -/
def qmin : List ℚ → ℚ
  | [] => 0
  | a :: as => as.foldl min a

/-- Spread maximum `Math.max(...xs)`, as `qmin`. -/
def qmax : List ℚ → ℚ
  | [] => 0
  | a :: as => as.foldl max a

/-- Content-box width of `CanvasUtils.fitToView` (src/lib/utils.ts lines
261-268): `maxX - minX` where `minX = min(xs) - padding` and
`maxX = max(xs) + padding + 300` (300 = fixed node width). This is the
divisor of the horizontal zoom ratio. -/
def contentWidth (nodes : List SystemNode) (padding : ℚ) : ℚ :=
  (qmax (nodes.map (fun n => n.position.x)) + padding + 300) -
    (qmin (nodes.map (fun n => n.position.x)) - padding)

/-- Content-box height of `CanvasUtils.fitToView` (150 = fixed node
height), the divisor of the vertical zoom ratio. -/
def contentHeight (nodes : List SystemNode) (padding : ℚ) : ℚ :=
  (qmax (nodes.map (fun n => n.position.y)) + padding + 150) -
    (qmin (nodes.map (fun n => n.position.y)) - padding)

/-- Model of `CanvasUtils.fitToView` (src/lib/utils.ts lines 251-281).
Empty node set returns identity `(1, (0,0))`; otherwise zoom is
`min(w/contentWidth, h/contentHeight, 1)` and pan centers the scaled
content box. -/
def fitToView (nodes : List SystemNode) (containerW containerH padding : ℚ) :
    ℚ × Pos :=
  match nodes with
  | [] => (1, ⟨0, 0⟩)
  | _ :: _ =>
    let minX := qmin (nodes.map (fun n => n.position.x)) - padding
    let minY := qmin (nodes.map (fun n => n.position.y)) - padding
    let cw := contentWidth nodes padding
    let ch := contentHeight nodes padding
    let zoom := min (min (containerW / cw) (containerH / ch)) 1
    (zoom,
      ⟨(containerW - cw * zoom) / 2 - minX * zoom,
       (containerH - ch * zoom) / 2 - minY * zoom⟩)

/-- Model of `deleteSelectedNode` (src/app/project/[id]/page.tsx lines
335-350): one compound update that filters the selected id out of `nodes`
and filters out every connection whose `source` or `target` equals it.
The source builds the whole updated project as a single object and then
stores it with one `ProjectStorage.save`, so no intermediate state is
observable; accordingly the model is a single pure function. -/
def deleteSelectedNode (sel : String) (p : Project) : Project :=
  { p with
    nodes := p.nodes.filter (fun n => n.id != sel),
    connections :=
      p.connections.filter (fun c => c.source != sel && c.target != sel) }

/-- Model of JS `Array.prototype.findIndex`: index of the first element
satisfying the predicate, if any. -/
def findIndex {α : Type} (p : α → Bool) : List α → Option Nat
  | [] => none
  | a :: as => if p a then some 0 else (findIndex p as).map (fun i => i + 1)

/-- Model of `ProjectStorage.save` (src/lib/utils.ts lines 60-71) acting
on the stored project list. If a project with the same id exists, the
first such slot is replaced by the incoming project with `updated_at`
refreshed to `now`; otherwise the incoming project is pushed at the end
unchanged. -/
def saveProject (now : String) (p : Project) (ps : List Project) :
    List Project :=
  match findIndex (fun q => q.id == p.id) ps with
  | some i => ps.set i { p with updated_at := now }
  | none => ps ++ [p]

/-- Model of `ProjectStorage.getById` (src/lib/utils.ts lines 55-58). -/
def getById (id : String) (ps : List Project) : Option Project :=
  ps.find? (fun p => p.id == id)

/-- Model of `ProjectStorage.create` (src/lib/utils.ts lines 78-93): the
project object it constructs before calling `save`. `generateId()` and
`new Date().toISOString()` are passed in as `freshId` and `now`. -/
def createProject (freshId now name : String) : Project :=
  { id := freshId
    name := name
    requirements := ""
    audience := "technical"
    nodes := []
    connections := []
    status := Status.draft
    created_at := now
    updated_at := now
    versions := [] }

/-- Heap of specification records, modelling the JS object store so that
reference sharing between a template's `defaultSpecs` object and a created
node's `specifications` field is observable. An address is a `Nat` index. -/
abbrev SpecHeap : Type := List Specifications

/-- Read the specification object at an address (out-of-range reads yield
a blank record; all addresses used in the theorems are in range). -/
def heapRead (h : SpecHeap) (r : Nat) : Specifications :=
  List.getD h r ⟨"", "", ""⟩

/-- Mutate the specification object at an address in place, modelling a
JS field assignment through a shared reference. -/
def heapWrite (h : SpecHeap) (r : Nat) (s : Specifications) : SpecHeap :=
  List.set h r s

/-- A component-library template (interface `ComponentTemplate`) whose
`defaultSpecs` field is an object reference into the `SpecHeap`. -/
structure ComponentTemplateRef where
  id : String
  type : String
  name : String
  description : String
  icon : String
  defaultSpecsRef : Nat
deriving DecidableEq

/-- A `SystemNode` whose `specifications` field is an object reference
into the `SpecHeap`; used only to settle the sharing question about
`createNodeFromTemplate`. -/
structure SystemNodeRef where
  id : String
  type : String
  name : String
  description : String
  position : Pos
  specificationsRef : Nat
  scaling : ScalingBlock
  fault_tolerance : FaultToleranceBlock
  connections : List String
  icon : String
deriving DecidableEq

/-- Model of `createNodeFromTemplate` (src/lib/utils.ts lines 165-191).
`generateId()` is passed in as `freshId`. Line 175 of the source reads
`specifications: template.defaultSpecs`, a plain JS reference assignment:
the node's `specificationsRef` is the template's address and no new
specification record is allocated (the heap is returned unchanged). -/
def createNodeFromTemplate (freshId : String) (t : ComponentTemplateRef)
    (pos : Pos) (h : SpecHeap) : SystemNodeRef × SpecHeap :=
  ({ id := freshId
     type := t.type
     name := t.name
     description := t.description
     position := pos
     specificationsRef := t.defaultSpecsRef
     scaling :=
       { horizontal := true
         vertical := false
         auto_scaling := true
         details := "Scales based on CPU/memory usage" }
     fault_tolerance :=
       { replication := true
         backup := true
         failover := true
         details := "Multi-region deployment with automated failover" }
     connections := []
     icon := t.icon }, h)

/-- Structured payload the code reads off a parsed agent response; only
the `nodes` and `connections` fields are ever accessed, so arbitrary JSON
values are modelled by this record with optional fields (`data = {}` in
the source is both fields absent). -/
structure AgentData where
  nodes : Option (List SystemNode)
  connections : Option (List NodeConnection)
deriving DecidableEq

/-- The `result` member of an agent response (interface
`DesignOrchestratorResponse.result`): an optional structured `data`
object and an optional free-text `response` string. -/
structure AgentResult where
  data : Option AgentData
  response : Option String
deriving DecidableEq

/-- An opaque agent response object; `none` models an absent or non-object
`result` member (optional chaining `response?.result?...` in the source
turns that into `undefined`). -/
structure AgentResponse where
  result : Option AgentResult
deriving DecidableEq

/-- Check whether `pat` is an initial segment of `l` (helper for locating
substring occurrences, as the JS regex engine does). -/
def leadsWith : List Char → List Char → Bool
  | [], _ => true
  | _ :: _, [] => false
  | p :: ps, c :: cs => p == c && leadsWith ps cs

/-- Split a character list at the first occurrence of the (non-empty)
pattern `pat`: returns the text before the occurrence and the text after
it, or `none` when `pat` does not occur. -/
def splitAtSub (pat : List Char) : List Char → Option (List Char × List Char)
  | [] => none
  | c :: cs =>
    if leadsWith pat (c :: cs) then
      some ([], List.drop pat.length (c :: cs))
    else
      match splitAtSub pat cs with
      | some (pre, post) => some (c :: pre, post)
      | none => none

/-- Drop leading JS whitespace characters. -/
def dropSpaces : List Char → List Char
  | [] => []
  | c :: cs =>
    if c == ' ' || c == '\n' || c == '\t' || c == '\r' then dropSpaces cs
    else c :: cs

/-- Trim whitespace from both ends, modelling the `\s*` trimming around
the regex capture group (and JS `String.prototype.trim`). -/
def trimChars (l : List Char) : List Char :=
  ((dropSpaces ((dropSpaces l).reverse)).reverse)

/-- Model of the fenced-block search at src/unnamed/part_000 line 337:
`responseText.match(/```json\s*([\s\S]*?)\s*```/)`. The leftmost
occurrence of ```json must be followed by a closing ``` fence; the
capture is the trimmed text between them. -/
def extractFenced (s : String) : Option String :=
  match splitAtSub ("```json".toList) s.toList with
  | none => none
  | some (_, rest) =>
    match splitAtSub ("```".toList) rest with
    | none => none
    | some (inner, _) => some (String.mk (trimChars inner))

/-- Index of the first occurrence of a character (JS `indexOf`, with
`none` for the source's `-1`). -/
def firstIdxOf (c : Char) (s : String) : Option Nat :=
  findIndex (fun d => d == c) s.toList

/-- Index of the last occurrence of a character (JS `lastIndexOf`). -/
def lastIdxOf (c : Char) (s : String) : Option Nat :=
  (findIndex (fun d => d == c) s.toList.reverse).map
    (fun i => s.toList.length - 1 - i)

/-- JS `String.prototype.substring(a, b)`: swaps its arguments when
`a > b` and clamps to the string length. -/
def jsSubstring (s : String) (a b : Nat) : String :=
  String.mk (List.take (max a b - min a b) (List.drop (min a b) s.toList))

/-- The single parse attempt the source makes on the free text
(src/unnamed/part_000 lines 336-347): parse the fenced-block capture if a
fenced block exists, else parse the substring from the first `{` to the
last `}` if both occur, else attempt nothing (`none`). -/
def attemptText (jparse : String → Except String AgentData) (s : String) :
    Option (Except String AgentData) :=
  match extractFenced s with
  | some frag => some (jparse frag)
  | none =>
    match firstIdxOf '{' s, lastIdxOf '}' s with
    | some i, some j => some (jparse (jsSubstring s i (j + 1)))
    | _, _ => none

/-- Resolution step 1 (src/unnamed/part_000 lines 322-328): start from
`data = {}` and replace it by `response.result.data` when that member is
present (an object is always truthy in JS). -/
def step1Data (resp : AgentResponse) : AgentData :=
  match resp.result with
  | some r =>
    match r.data with
    | some d => d
    | none => ⟨none, none⟩
  | none => ⟨none, none⟩

/-- The free text of a response (`response?.result?.response`). -/
def textOf (resp : AgentResponse) : Option String :=
  match resp.result with
  | some r => r.response
  | none => none

/-- Resolution steps 1-3 (src/unnamed/part_000 lines 322-351). Step 2/3
run only when step 1 produced no `nodes` member at all (`!data.nodes`; an
empty array is truthy in JS) and the free text is a non-empty string. A
parse exception (`Except.error`) is caught by the `try/catch` of the
source and leaves `data` unchanged; so does a text with nothing to parse. -/
def resolveData (jparse : String → Except String AgentData)
    (resp : AgentResponse) : AgentData :=
  let d0 := step1Data resp
  match d0.nodes, textOf resp with
  | none, some s =>
    if s == "" then d0
    else
      match attemptText jparse s with
      | some (Except.ok d) => d
      | _ => d0
  | _, _ => d0

/-- The four synthesized fallback nodes (src/unnamed/part_000 lines
357-462), with ids drawn from the call's id supply in evaluation order
(`gen 0` .. `gen 3`). -/
def fallbackNodes (gen : Nat → String) : List SystemNode :=
  [ { id := gen 0
      type := "api-gateway"
      name := "API Gateway"
      description := "Entry point for all client requests"
      position := ⟨100, 100⟩
      specifications := ⟨"NGINX / Kong", "10K requests/sec", "<50ms"⟩
      scaling := ⟨true, false, true, "Auto-scales based on request volume"⟩
      fault_tolerance :=
        ⟨true, true, true, "Multi-region deployment with health checks"⟩
      connections := []
      icon := "FaServer" },
    { id := gen 1
      type := "service"
      name := "Application Service"
      description := "Core business logic processing"
      position := ⟨500, 100⟩
      specifications :=
        ⟨"Node.js / Python", "Auto-scaling 10-100 instances", "<100ms"⟩
      scaling := ⟨true, false, true, "Kubernetes HPA based on CPU/memory"⟩
      fault_tolerance :=
        ⟨true, true, true, "Circuit breaker pattern with fallback"⟩
      connections := []
      icon := "FaCube" },
    { id := gen 2
      type := "database"
      name := "Primary Database"
      description := "Persistent data storage"
      position := ⟨500, 400⟩
      specifications := ⟨"PostgreSQL", "1TB storage", "<10ms reads"⟩
      scaling := ⟨false, true, false, "Vertical scaling with read replicas"⟩
      fault_tolerance :=
        ⟨true, true, true, "Multi-AZ deployment with automated backups"⟩
      connections := []
      icon := "FaDatabase" },
    { id := gen 3
      type := "cache"
      name := "Cache Layer"
      description := "In-memory caching for performance"
      position := ⟨900, 250⟩
      specifications := ⟨"Redis", "100GB memory", "<1ms"⟩
      scaling := ⟨true, true, true, "Redis cluster with automatic sharding"⟩
      fault_tolerance := ⟨true, true, true, "Redis Sentinel for high availability"⟩
      connections := []
      icon := "FaBolt" } ]

/-- The synthesized fallback connections in their final form
(src/unnamed/part_000 lines 491-518). The first `connections` array built
inside the object literal (lines 463-488, consuming `gen 4` .. `gen 6`
and reading the **pre-assignment** `data.nodes`, hence empty-string
endpoints) is immediately overwritten by this array, whose ids are
`gen 7` .. `gen 9` and whose endpoints are `nodeIds[k] = gen k` of the
nodes just generated. -/
def fallbackConnections (gen : Nat → String) : List NodeConnection :=
  [ { id := gen 7
      source := gen 0
      target := gen 1
      type := "sync"
      label := "HTTP/REST"
      protocol := "HTTPS" },
    { id := gen 8
      source := gen 1
      target := gen 2
      type := "sync"
      label := "Database queries"
      protocol := "PostgreSQL" },
    { id := gen 9
      source := gen 1
      target := gen 3
      type := "sync"
      label := "Cache access"
      protocol := "Redis" } ]

/-- The fallback payload of resolution step 4. -/
def fallbackData (gen : Nat → String) : AgentData :=
  ⟨some (fallbackNodes gen), some (fallbackConnections gen)⟩

/-- Model of the long `parseAgentResponse` (src/unnamed/part_000 lines
318-525): resolution steps 1-3, then the unconditional step-4 fallback
when they yielded no nodes or an empty `nodes` array
(`!data.nodes || data.nodes.length === 0`). -/
def parseAgentResponseFull (jparse : String → Except String AgentData)
    (gen : Nat → String) (resp : AgentResponse) :
    List SystemNode × List NodeConnection :=
  let d1 := resolveData jparse resp
  let d2 :=
    match d1.nodes with
    | none => fallbackData gen
    | some [] => fallbackData gen
    | some (_ :: _) => d1
  (d2.nodes.getD [], d2.connections.getD [])

/-- Model of the short `parseAgentResponse` (src/lib/utils.ts lines
210-221): only resolution step 1, defaulting both arrays to empty. This
is the version src/app/project/[id]/page.tsx imports. -/
def parseAgentResponseLib (resp : AgentResponse) :
    List SystemNode × List NodeConnection :=
  let d := step1Data resp
  (d.nodes.getD [], d.connections.getD [])

/-- JS `String.prototype.trim`, modelled on the character list. -/
def jsTrim (s : String) : String :=
  String.mk (trimChars s.toList)

/-- Outcome of the `callAIAgent` helper as `handleGenerateDesign` reads
it: the transport-level `success` flag, the agent-level
`response.status` string, the response body and the optional transport
error message. -/
structure AgentCallResult where
  success : Bool
  respStatus : String
  response : AgentResponse
  error : Option String
deriving DecidableEq

/-- Observable trace of one run of `handleGenerateDesign`:
`projectStates` is the sequence of values the project state holds over
the run (initial value first; each `setProject` appends one), and
`isGeneratingSeq` the sequence of values written to the separate
`isGenerating` boolean flag. -/
structure GenTrace where
  projectStates : List Project
  generationError : Option String
  isGeneratingSeq : List Bool
deriving DecidableEq

/-- Model of `handleGenerateDesign` (src/app/project/[id]/page.tsx lines
137-183). Empty (trimmed) requirements short-circuit before the agent
call. Otherwise `isGenerating` is set `true`, the agent result is
examined, and on a successful call with a non-empty parsed node list the
project is replaced once by `{...project, nodes, connections, status:
completed}` and saved; `isGenerating` is set `false` in the `finally`
block. The project's `status` field is never assigned `generating`
anywhere in the source. The parser is passed in because the page imports
`parseAgentResponse` from src/lib/utils.ts (the short version). -/
def handleGenerateDesign (req : String) (p : Project)
    (parser : AgentResponse → List SystemNode × List NodeConnection)
    (call : AgentCallResult) : GenTrace :=
  if jsTrim req == "" then
    { projectStates := [p]
      generationError := some "Please enter system requirements first"
      isGeneratingSeq := [] }
  else if call.success && call.respStatus == "success" then
    let parsed := parser call.response
    if parsed.1.isEmpty then
      { projectStates := [p]
        generationError := some "Agent response received but no architecture components were generated. Please try refining your requirements."
        isGeneratingSeq := [true, false] }
    else
      { projectStates :=
          [p,
           { p with
             nodes := parsed.1
             connections := parsed.2
             status := Status.completed }]
        generationError := none
        isGeneratingSeq := [true, false] }
  else
    { projectStates := [p]
      generationError :=
        some (call.error.getD "Failed to generate design. Please try again.")
      isGeneratingSeq := [true, false] }

/-- Concrete sample specification record, for witnesses. -/
def sampleSpecs : Specifications :=
  ⟨"PostgreSQL / MySQL", "1TB storage", "<10ms reads"⟩

/-- Concrete sample node, for witnesses. -/
def sampleNode : SystemNode :=
  { id := "n1"
    type := "database"
    name := "Primary Database"
    description := "Persistent data storage"
    position := ⟨100, 100⟩
    specifications := sampleSpecs
    scaling := ⟨true, false, true, "Scales based on CPU/memory usage"⟩
    fault_tolerance :=
      ⟨true, true, true, "Multi-region deployment with automated failover"⟩
    connections := []
    icon := "FaDatabase" }

/-- Second concrete sample node. -/
def sampleNodeB : SystemNode :=
  { sampleNode with id := "n2", type := "service", name := "App Service" }

/-- Connection from `sampleNode` to `sampleNodeB`. -/
def connAB : NodeConnection :=
  ⟨"c1", "n1", "n2", "sync", "Database queries", "PostgreSQL"⟩

/-- Connection not touching `sampleNode`. -/
def connBB : NodeConnection :=
  ⟨"c2", "n2", "n2", "sync", "Loop", "HTTP"⟩

/-- Concrete sample project, for witnesses. -/
def sampleProject : Project :=
  { id := "p1"
    name := "Sample"
    requirements := "A data service"
    audience := "technical"
    nodes := [sampleNode, sampleNodeB]
    connections := [connAB, connBB]
    status := Status.draft
    created_at := "2020-01-01"
    updated_at := "2020-01-01"
    versions := [] }

/-- Incoming update for `sampleProject` (same id, fresh content). -/
def sampleProjectV2 : Project :=
  { sampleProject with requirements := "A bigger data service" }

/-- Sample project under a different id. -/
def projA : Project :=
  { sampleProject with id := "pA" }

/-- Sample project under id pB. -/
def projB : Project :=
  { sampleProject with id := "pB" }

/-- A parse function that always throws, for witnesses. -/
def jparseFail : String → Except String AgentData :=
  fun _ => Except.error "parse error"

/-- A concrete id supply, for witnesses. -/
def genSample : Nat → String :=
  fun n => String.append "id-" (toString n)

/-- A response with no `result` member at all. -/
def respNone : AgentResponse := ⟨none⟩

/-- A response with only unparseable free text (it contains braces, so
the step-3 substring parse is attempted and fails). -/
def respTextOnly : AgentResponse := ⟨some ⟨none, some "x{y}z"⟩⟩

/-- A response carrying structured data with one node. -/
def respWithNodes : AgentResponse :=
  ⟨some ⟨some ⟨some [sampleNode], some [connAB]⟩, some "done"⟩⟩

/-- A successful agent call carrying `respWithNodes`. -/
def sampleCall : AgentCallResult :=
  { success := true
    respStatus := "success"
    response := respWithNodes
    error := none }

/-- Default specs of the api-gateway template (src/lib/utils.ts lines
106-110), the record the sample heap stores at address 0. -/
def gatewaySpecs : Specifications :=
  ⟨"NGINX / Kong", "10K requests/sec", "<50ms"⟩

/-- A different specification record, used to observe mutation through a
shared reference. -/
def altSpecs : Specifications :=
  ⟨"Envoy", "1K requests/sec", "<5ms"⟩

/-- Sample heap holding the gateway template's default specs. -/
def sampleHeap : SpecHeap := [gatewaySpecs]

/-- The api-gateway template of `componentTemplates` (src/lib/utils.ts
lines 100-111), with its `defaultSpecs` object living at heap address 0. -/
def gatewayTemplate : ComponentTemplateRef :=
  { id := "api-gateway"
    type := "api-gateway"
    name := "API Gateway"
    description :=
      "Entry point for client requests with routing and load balancing"
    icon := "FaServer"
    defaultSpecsRef := 0 }

/-- Helper: `findIndex` returns an in-range index whose element satisfies
the predicate. -/
theorem findIndex_lt_length {α : Type} (p : α → Bool) :
    ∀ (l : List α) (i : Nat), findIndex p l = some i →
      ∃ h : i < l.length, p (l.get ⟨i, h⟩) = true := by
  intro l
  induction l with
  | nil => intro i h; simp [findIndex] at h
  | cons a as ih =>
    intro i h
    by_cases hp : p a
    · simp [findIndex, hp] at h
      subst h
      exact ⟨Nat.succ_pos _, by simpa using hp⟩
    · simp [findIndex, hp] at h
      obtain ⟨i0, h0, rfl⟩ := h
      obtain ⟨hlt, hpi⟩ := ih i0 h0
      refine ⟨by simp only [List.length_cons]; omega, ?_⟩
      rw [List.get_cons_succ]
      exact hpi

/-- Helper: a left fold of `min` never exceeds its initial value. -/
theorem foldl_min_le_init : ∀ (l : List ℚ) (a : ℚ), l.foldl min a ≤ a := by
  intro l
  induction l with
  | nil => intro a; simp
  | cons b bs ih =>
    intro a
    calc bs.foldl min (min a b) ≤ min a b := ih (min a b)
      _ ≤ a := min_le_left a b

/-- Helper: a left fold of `max` never falls below its initial value. -/
theorem init_le_foldl_max : ∀ (l : List ℚ) (a : ℚ), a ≤ l.foldl max a := by
  intro l
  induction l with
  | nil => intro a; simp
  | cons b bs ih =>
    intro a
    calc a ≤ max a b := le_max_left a b
      _ ≤ bs.foldl max (max a b) := ih (max a b)

/-- C1: for every point, pan and strictly positive zoom,
`screenToCanvas` applied to the `canvasToScreen` image (with the same pan
and zoom) returns the original point exactly: the two coordinate
transforms are inverses. -/
theorem screen_canvas_roundtrip (x y : ℚ) (pan : Pos) (zoom : ℚ)
    (hz : 0 < zoom) :
    screenToCanvas (canvasToScreen x y pan zoom).x
      (canvasToScreen x y pan zoom).y pan zoom = ⟨x, y⟩ := by
  have hz0 : zoom ≠ 0 := ne_of_gt hz
  unfold screenToCanvas canvasToScreen
  simp only [Pos.mk.injEq]
  constructor
  · rw [add_sub_cancel_right]
    exact mul_div_cancel_right₀ x hz0
  · rw [add_sub_cancel_right]
    exact mul_div_cancel_right₀ y hz0

/-- Witness for C1 at point (3, 5), pan (7, 11), zoom 2. -/
theorem screen_canvas_roundtrip_witness :
    (0 : ℚ) < 2 ∧
      screenToCanvas (canvasToScreen 3 5 ⟨7, 11⟩ 2).x
        (canvasToScreen 3 5 ⟨7, 11⟩ 2).y ⟨7, 11⟩ 2 = ⟨3, 5⟩ :=
  ⟨by norm_num, screen_canvas_roundtrip 3 5 ⟨7, 11⟩ 2 (by norm_num)⟩

/-- C2: deleting the selected node removes every node with that id and
every connection whose source or target is that id, keeps every other
node and connection, and (being a single pure update of both fields
followed by one save) is never observable as partially applied: no
connection of the resulting project references the deleted id. -/
theorem deleteSelectedNode_removes_node_and_edges (sel : String)
    (p : Project) :
    (∀ n ∈ (deleteSelectedNode sel p).nodes, n.id ≠ sel) ∧
    (∀ c ∈ (deleteSelectedNode sel p).connections,
      c.source ≠ sel ∧ c.target ≠ sel) ∧
    (∀ n ∈ p.nodes, n.id ≠ sel → n ∈ (deleteSelectedNode sel p).nodes) ∧
    (∀ c ∈ p.connections, c.source ≠ sel → c.target ≠ sel →
      c ∈ (deleteSelectedNode sel p).connections) := by
  refine ⟨?_, ?_, ?_, ?_⟩
  · intro n hn
    rw [deleteSelectedNode, List.mem_filter] at hn
    simpa using hn.2
  · intro c hc
    rw [deleteSelectedNode, List.mem_filter] at hc
    have := hc.2
    simp only [Bool.and_eq_true, bne_iff_ne] at this
    exact this
  · intro n hn hid
    rw [deleteSelectedNode, List.mem_filter]
    exact ⟨hn, by simpa using hid⟩
  · intro c hc hs ht
    rw [deleteSelectedNode, List.mem_filter]
    refine ⟨hc, ?_⟩
    simp only [Bool.and_eq_true, bne_iff_ne]
    exact ⟨hs, ht⟩

/-- Witness for C2: in the sample project after deleting node n1, the
surviving connection touches neither endpoint n1. -/
theorem deleteSelectedNode_removes_node_and_edges_witness :
    connBB.source ≠ "n1" ∧ connBB.target ≠ "n1" :=
  (deleteSelectedNode_removes_node_and_edges "n1" sampleProject).2.1 connBB
    (by decide)

/-- C3: whenever resolution steps 1-3 yield no nodes (neither structured
data nor parseable text produced any), the full normalizer returns
exactly four nodes typed api-gateway, service, database, cache, and every
connection's source and target is the id of one of those same four
freshly generated nodes. -/
theorem parseFull_fallback_wellformed
    (jparse : String → Except String AgentData) (gen : Nat → String)
    (resp : AgentResponse)
    (h : (resolveData jparse resp).nodes = none ∨
      (resolveData jparse resp).nodes = some []) :
    (parseAgentResponseFull jparse gen resp).1.map (fun n => n.type) =
      ["api-gateway", "service", "database", "cache"] ∧
    (parseAgentResponseFull jparse gen resp).1.length = 4 ∧
    ∀ c ∈ (parseAgentResponseFull jparse gen resp).2,
      c.source ∈ (parseAgentResponseFull jparse gen resp).1.map
        (fun n => n.id) ∧
      c.target ∈ (parseAgentResponseFull jparse gen resp).1.map
        (fun n => n.id) := by
  have hout : parseAgentResponseFull jparse gen resp =
      (fallbackNodes gen, fallbackConnections gen) := by
    unfold parseAgentResponseFull
    rcases h with h | h <;> simp only [h, fallbackData, Option.getD_some]
  rw [hout]
  refine ⟨by simp [fallbackNodes], by simp [fallbackNodes], ?_⟩
  intro c hc
  simp only [fallbackConnections, List.mem_cons, List.not_mem_nil,
    or_false] at hc
  rcases hc with rfl | rfl | rfl <;> simp [fallbackNodes]

/-- Witness for C3: a response with no result member at all yields the
four-node fallback. -/
theorem parseFull_fallback_wellformed_witness :
    (parseAgentResponseFull jparseFail genSample respNone).1.length = 4 :=
  (parseFull_fallback_wellformed jparseFail genSample respNone
    (Or.inl rfl)).2.1

/-- C4: when step 1 found no nodes member, the free text is a non-empty
string, and the attempted JSON parse of the extracted fragment (fenced
block or first-brace-to-last-brace substring) throws, the exception is
caught: the resolved data is exactly the step-1 data (the parse is
treated as no-data-found) and the normalizer falls through to the
unconditional step-4 fallback, returning it normally to the caller
instead of surfacing the error (the model is a total function into plain
node and connection lists). -/
theorem parse_failure_falls_through
    (jparse : String → Except String AgentData) (gen : Nat → String)
    (r : AgentResult) (s e : String)
    (hd : (step1Data ⟨some r⟩).nodes = none)
    (hs : r.response = some s) (hne : s ≠ "")
    (hfail : attemptText jparse s = some (Except.error e)) :
    resolveData jparse ⟨some r⟩ = step1Data ⟨some r⟩ ∧
    parseAgentResponseFull jparse gen ⟨some r⟩ =
      (fallbackNodes gen, fallbackConnections gen) := by
  have hbeq : (s == "") = false := by
    simpa using hne
  have htext : textOf ⟨some r⟩ = some s := by
    simpa [textOf] using hs
  have h1 : resolveData jparse ⟨some r⟩ = step1Data ⟨some r⟩ := by
    unfold resolveData
    simp only [hd, htext, hbeq, Bool.false_eq_true, if_false, hfail]
  refine ⟨h1, ?_⟩
  unfold parseAgentResponseFull
  simp only [h1, hd, fallbackData, Option.getD_some]

/-- Witness for C4 on a response whose only content is the unparseable
text x-brace-y-brace-z, with a parse function that always throws. -/
theorem parse_failure_falls_through_witness :
    parseAgentResponseFull jparseFail genSample respTextOnly =
      (fallbackNodes genSample, fallbackConnections genSample) :=
  (parse_failure_falls_through jparseFail genSample ⟨none, some "x{y}z"⟩
    "x{y}z" "parse error" rfl rfl (by decide) rfl).2

/-- Counterexample to C5 as stated: inserting a project whose timestamps
differ from the current time stores it verbatim - `save` does not assign
`created_at = updated_at = now` on insert (the sample project carries
2020 timestamps, the save happens at a 2021 instant, and the stored
record still carries 2020). -/
theorem save_insert_keeps_existing_timestamps :
    saveProject "2021-05-05" sampleProject [] = [sampleProject] ∧
    sampleProject.created_at ≠ "2021-05-05" ∧
    sampleProject.updated_at ≠ "2021-05-05" := by
  refine ⟨rfl, by decide, by decide⟩

/-- C5 as amended: `save` upserts by id - when a project with the same id
is already stored, the first such slot afterwards holds the incoming
project with `updated_at` refreshed to now; when none is, the incoming
project is appended unchanged (its timestamps as the caller set them).
`created_at = updated_at = now` holds for new projects only because
`ProjectStorage.create` constructs them that way before calling save. -/
theorem save_upserts_by_id (now : String) (p : Project)
    (ps : List Project) :
    (∀ j, findIndex (fun q => q.id == p.id) ps = some j →
      (saveProject now p ps)[j]? = some { p with updated_at := now }) ∧
    (findIndex (fun q => q.id == p.id) ps = none →
      saveProject now p ps = ps ++ [p]) ∧
    (∀ freshId nm, (createProject freshId now nm).created_at = now ∧
      (createProject freshId now nm).updated_at = now) := by
  refine ⟨?_, ?_, ?_⟩
  · intro j hj
    obtain ⟨hlt, _⟩ := findIndex_lt_length _ ps j hj
    unfold saveProject
    rw [hj]
    rw [List.getElem?_set]
    simp [hlt]
  · intro hnone
    unfold saveProject
    rw [hnone]
  · intro freshId nm
    exact ⟨rfl, rfl⟩

/-- Witness for C5 (amended): updating the stored sample project by id
refreshes its updated-at to the save instant. -/
theorem save_upserts_by_id_witness :
    (saveProject "2021-05-05" sampleProjectV2 [sampleProject])[0]? =
      some { sampleProjectV2 with updated_at := "2021-05-05" } :=
  (save_upserts_by_id "2021-05-05" sampleProjectV2 [sampleProject]).1 0
    (by decide)

/-- Counterexample to C6 as stated: the created node's specifications are
not copied by value - the node holds the very same object reference as
the template's defaultSpecs (and no new record is allocated), so writing
through the node's reference mutates what the template's reference reads. -/
theorem createNode_shares_template_specs :
    ((createNodeFromTemplate "n1" gatewayTemplate ⟨10, 20⟩
        sampleHeap).1.specificationsRef =
      gatewayTemplate.defaultSpecsRef) ∧
    ((createNodeFromTemplate "n1" gatewayTemplate ⟨10, 20⟩
        sampleHeap).2 = sampleHeap) ∧
    heapRead
      (heapWrite
        (createNodeFromTemplate "n1" gatewayTemplate ⟨10, 20⟩ sampleHeap).2
        (createNodeFromTemplate "n1" gatewayTemplate ⟨10, 20⟩
          sampleHeap).1.specificationsRef
        altSpecs)
      gatewayTemplate.defaultSpecsRef = altSpecs ∧
    altSpecs ≠ heapRead sampleHeap gatewayTemplate.defaultSpecsRef := by
  refine ⟨rfl, rfl, rfl, by decide⟩

/-- C6 as amended: the Template Instantiator returns a new SystemNode
with the given fresh id, the drop position, the fixed default scaling
block (horizontal, auto-scaling on, vertical off) and fault-tolerance
block (replication, backup, failover on), and its specifications field is
the template's defaultSpecs object itself - assigned by reference and
shared with the template, not copied; the heap is unchanged (no
allocation, no other side effect). -/
theorem createNodeFromTemplate_defaults (freshId : String)
    (t : ComponentTemplateRef) (pos : Pos) (h : SpecHeap) :
    ((createNodeFromTemplate freshId t pos h).1.id = freshId) ∧
    ((createNodeFromTemplate freshId t pos h).1.position = pos) ∧
    ((createNodeFromTemplate freshId t pos h).1.scaling =
      ⟨true, false, true, "Scales based on CPU/memory usage"⟩) ∧
    ((createNodeFromTemplate freshId t pos h).1.fault_tolerance =
      ⟨true, true, true, "Multi-region deployment with automated failover"⟩) ∧
    ((createNodeFromTemplate freshId t pos h).1.specificationsRef =
      t.defaultSpecsRef) ∧
    ((createNodeFromTemplate freshId t pos h).2 = h) :=
  ⟨rfl, rfl, rfl, rfl, rfl, rfl⟩

/-- Counterexample to C7 as stated: in a successful generation run
starting from a draft project, the sequence of values the project's
status field takes is draft then completed - it is never set to
generating (that word names only the separate isGenerating boolean UI
flag and the never-assigned member of the status union type). -/
theorem generate_run_skips_generating_status :
    ((handleGenerateDesign "Build a chat app" sampleProject
        parseAgentResponseLib sampleCall).projectStates.map
      (fun q => q.status) = [Status.draft, Status.completed]) ∧
    Status.generating ∉
      ((handleGenerateDesign "Build a chat app" sampleProject
          parseAgentResponseLib sampleCall).projectStates.map
        (fun q => q.status)) := by
  refine ⟨rfl, by decide⟩

/-- C7 as amended: during agent generation the in-flight indicator is the
separate isGenerating boolean, set true while the call is in flight and
false when it settles; the project's status field transitions directly
from draft to completed when the generated nodes are applied, and the
value generating never appears in the status sequence. -/
theorem generate_status_draft_to_completed (req : String) (p : Project)
    (parser : AgentResponse → List SystemNode × List NodeConnection)
    (call : AgentCallResult) (ns : List SystemNode)
    (cs : List NodeConnection)
    (hreq : jsTrim req ≠ "") (hsucc : call.success = true)
    (hstat : call.respStatus = "success")
    (hparse : parser call.response = (ns, cs)) (hne : ns ≠ [])
    (hdraft : p.status = Status.draft) :
    ((handleGenerateDesign req p parser call).projectStates.map
      (fun q => q.status) = [Status.draft, Status.completed]) ∧
    Status.generating ∉
      ((handleGenerateDesign req p parser call).projectStates.map
        (fun q => q.status)) ∧
    (handleGenerateDesign req p parser call).isGeneratingSeq =
      [true, false] := by
  have hbeq : (jsTrim req == "") = false := by
    simpa using hreq
  have hsbeq : (call.respStatus == "success") = true := by
    simpa using hstat
  have hemp : ns.isEmpty = false := by
    cases ns with
    | nil => exact absurd rfl hne
    | cons a as => rfl
  unfold handleGenerateDesign
  simp only [hbeq, Bool.false_eq_true, if_false, hsucc, hsbeq,
    Bool.and_self, if_true, hparse, hemp, List.map_cons, List.map_nil,
    hdraft]
  refine ⟨trivial, ?_, trivial⟩
  decide

/-- Witness for C7 (amended) on the sample draft project and a successful
call carrying one structured node. -/
theorem generate_status_draft_to_completed_witness :
    (handleGenerateDesign "Build a chat app" sampleProject
      parseAgentResponseLib sampleCall).isGeneratingSeq = [true, false] :=
  (generate_status_draft_to_completed "Build a chat app" sampleProject
    parseAgentResponseLib sampleCall [sampleNode] [connAB] (by decide) rfl
    rfl rfl (by decide) rfl).2.2

/-- C8: for every non-empty node set and non-negative padding the content
dimensions that fitToView divides by are at least 1 (the bounding box is
always inflated by the fixed 300 x 150 node footprint plus twice the
padding), so the zoom-ratio divisions never divide by zero; the zoom is
the min of the two viewport/content ratios and 1. -/
theorem fitToView_content_dims_ge_one (nodes : List SystemNode)
    (w h padding : ℚ) (hne : nodes ≠ []) (hp : 0 ≤ padding) :
    1 ≤ contentWidth nodes padding ∧ 1 ≤ contentHeight nodes padding ∧
    (fitToView nodes w h padding).1 =
      min (min (w / contentWidth nodes padding)
        (h / contentHeight nodes padding)) 1 := by
  obtain ⟨n, ns, rfl⟩ : ∃ n ns, nodes = n :: ns := by
    cases nodes with
    | nil => exact absurd rfl hne
    | cons n ns => exact ⟨n, ns, rfl⟩
  have hx1 := foldl_min_le_init (ns.map (fun m => m.position.x))
    n.position.x
  have hx2 := init_le_foldl_max (ns.map (fun m => m.position.x))
    n.position.x
  have hy1 := foldl_min_le_init (ns.map (fun m => m.position.y))
    n.position.y
  have hy2 := init_le_foldl_max (ns.map (fun m => m.position.y))
    n.position.y
  refine ⟨?_, ?_, ?_⟩
  · unfold contentWidth
    simp only [List.map_cons, qmin, qmax]
    linarith
  · unfold contentHeight
    simp only [List.map_cons, qmin, qmax]
    linarith
  · rfl

/-- Witness for C8 on a single node (zero-area content) with the default
padding 50. -/
theorem fitToView_content_dims_ge_one_witness :
    1 ≤ contentWidth [sampleNode] 50 :=
  (fitToView_content_dims_ge_one [sampleNode] 800 600 50 (by decide)
    (by norm_num)).1

/-- Counterexample to C9 as stated: on a response carrying no structured
data the two parseAgentResponse definitions disagree - the short one
(src/lib/utils.ts) returns empty arrays while the long one
(src/unnamed/part_000) returns the four-node fallback - so they do not
compute the same function. -/
theorem parse_versions_disagree :
    parseAgentResponseLib respNone ≠
      parseAgentResponseFull jparseFail genSample respNone := by
  intro h
  have h4 : (parseAgentResponseFull jparseFail genSample
      respNone).1.length = 4 := rfl
  rw [← h] at h4
  exact absurd h4 (by decide)

/-- C9 as amended: the two definitions agree exactly on responses whose
structured data carries a non-empty nodes array (both then return that
array and the data's connections); on a response with no structured nodes
the short version returns empty arrays where the long one falls back to
the synthesized four-node diagram. -/
theorem parse_versions_agree_on_structured
    (jparse : String → Except String AgentData) (gen : Nat → String)
    (r : AgentResult) (d : AgentData) (n : SystemNode)
    (ns : List SystemNode) (hd : r.data = some d)
    (hn : d.nodes = some (n :: ns)) :
    parseAgentResponseLib ⟨some r⟩ =
      parseAgentResponseFull jparse gen ⟨some r⟩ := by
  have hstep : step1Data ⟨some r⟩ = d := by
    simp [step1Data, hd]
  have hres : resolveData jparse ⟨some r⟩ = d := by
    unfold resolveData
    simp only [hstep, hn]
  unfold parseAgentResponseLib parseAgentResponseFull
  simp only [hstep, hres, hn]

/-- Witness for C9 (amended) on a response carrying one structured node. -/
theorem parse_versions_agree_on_structured_witness :
    parseAgentResponseLib respWithNodes =
      parseAgentResponseFull jparseFail genSample respWithNodes :=
  parse_versions_agree_on_structured jparseFail genSample
    ⟨some ⟨some [sampleNode], some [connAB]⟩, some "done"⟩
    ⟨some [sampleNode], some [connAB]⟩ sampleNode [] rfl rfl

/-- C10: `save` leaves every stored project whose id differs from the
incoming one unchanged and in place (position i still holds the same
record), and the whole effect is either an in-place replacement of one
existing slot or an append at the end - so relative order is preserved. -/
theorem save_preserves_other_projects (now : String) (p : Project)
    (ps : List Project) :
    (∀ i, ∀ h : i < ps.length, (ps.get ⟨i, h⟩).id ≠ p.id →
      (saveProject now p ps)[i]? = some (ps.get ⟨i, h⟩)) ∧
    ((∃ j, j < ps.length ∧
        saveProject now p ps = ps.set j { p with updated_at := now }) ∨
      saveProject now p ps = ps ++ [p]) := by
  constructor
  · intro i h hid
    unfold saveProject
    cases hfi : findIndex (fun q => q.id == p.id) ps with
    | none =>
      rw [List.getElem?_append_left h, List.getElem?_eq_getElem h]
      rfl
    | some j =>
      obtain ⟨hj, hpj⟩ := findIndex_lt_length _ ps j hfi
      have hne : j ≠ i := by
        intro hji
        subst hji
        exact hid (by simpa using hpj)
      rw [List.getElem?_set_ne hne, List.getElem?_eq_getElem h]
      rfl
  · cases hfi : findIndex (fun q => q.id == p.id) ps with
    | none =>
      right
      unfold saveProject
      rw [hfi]
    | some j =>
      left
      obtain ⟨hj, _⟩ := findIndex_lt_length _ ps j hfi
      refine ⟨j, hj, ?_⟩
      unfold saveProject
      rw [hfi]

/-- Witness for C10: saving an update of project pB leaves the stored
project pA at its position, unchanged. -/
theorem save_preserves_other_projects_witness :
    (saveProject "2021-05-05" projB [projA, projB])[0]? = some projA :=
  (save_preserves_other_projects "2021-05-05" projB [projA, projB]).1 0
    (by decide) (by decide)
